import Mathlib

/-! Verification development for the gammaALPs tutorial notebook
docs/tutorials/mixing_single_cell.ipynb.

The notebook is embedded in two ways: a syntactic embedding of its code
cells as a small Python abstract syntax tree, and a semantic embedding of
the cell sequence as a sequence of transitions on a notebook state.  The
gammaALPs library itself is not part of the provided sources; where its
behaviour is needed it is modelled from the specification, as marked on
each such definition. -/

/-- Python identifiers appearing in the notebook, as an enumerated type.
Constructors whose name begins with s stand for the string literals of
the notebook. -/
inductive PyName where
  | gammaALPs_core
  | gammaALPs_base_transfer
  | numpy
  | matplotlib_pyplot
  | astropy_constants
  | Source
  | ALP
  | ModuleList
  | EminGeV
  | EmaxGeV
  | np
  | plt
  | cconst
  | m
  | g
  | alp
  | EGeV
  | pin
  | src
  | ml
  | px
  | py
  | pa
  | logspace
  | diag
  | ones_like
  | pi
  | modules
  | psin
  | add_propagation
  | run
  | shape
  | printName
  | semilogx
  | axvline
  | xlabel
  | ylabel
  | B
  | nel
  | m_neV
  | g11
  | BmuG
  | n_cm3
  | z
  | l
  | b
  | seed
  | environ
  | order
  | B0
  | L0
  | nsim
  | n0
  | r_abell
  | beta
  | eta
  | lw
  | ls
  | color
  | sICMCell
  | sDashed
  | sDashDot
  | sBlack
  | sEnergyGeV
  | sPagamma
  deriving DecidableEq, BEq

/-- Binary arithmetic operators occurring in the notebook. -/
inductive PyOp where
  | mul
  | div
  deriving DecidableEq

/-- Python expressions, covering every expression form used by the
notebook cells. -/
inductive PyExpr where
  | num (q : ℚ)
  | strLit (s : PyName)
  | nameE (x : PyName)
  | attrE (e : PyExpr) (f : PyName)
  | tup (es : List PyExpr)
  | call (f : PyExpr) (args : List PyExpr) (kwargs : List (PyName × PyExpr))
  | binop (op : PyOp) (a : PyExpr) (b : PyExpr)
  | subscript (e : PyExpr) (i : PyExpr)

/-- Python statements.  The error-handling, branching and definition
forms are included in the syntax so that their absence from the notebook
is a fact about the notebook, not about the grammar. -/
inductive PyStmt where
  | impStmt (module : PyName) (names : List PyName)
  | assign (target : PyExpr) (rhs : PyExpr)
  | exprStmt (e : PyExpr)
  | tryExcept (body : List PyStmt) (handler : List PyStmt)
  | ifStmt (cond : PyExpr) (thn : List PyStmt) (els : List PyStmt)
  | raiseStmt (e : PyExpr)
  | funcDef (nm : PyName) (body : List PyStmt)
  | classDef (nm : PyName) (body : List PyStmt)

open PyExpr PyStmt in
/-- The code cells of the notebook, statement by statement.  Cell 1 is
the import cell; cells 2 to 9 set up and run the mixing computation and
cell 10 draws the plot. -/
def notebookAST : List (List PyStmt) :=
  [ [ impStmt .gammaALPs_core [.Source, .ALP, .ModuleList],
      impStmt .gammaALPs_base_transfer [.EminGeV, .EmaxGeV],
      impStmt .numpy [.np],
      impStmt .matplotlib_pyplot [.plt],
      impStmt .astropy_constants [.cconst] ],
    [ assign (tup [nameE .m, nameE .g]) (tup [num 10, num 3]),
      assign (nameE .alp) (call (nameE .ALP) [nameE .m, nameE .g] []) ],
    [ assign (nameE .EGeV)
        (call (attrE (nameE .np) .logspace) [num 0, num 8, num 1000] []) ],
    [ assign (nameE .pin)
        (call (attrE (nameE .np) .diag) [tup [num 1, num 0, num 0]] []) ],
    [ assign (nameE .src)
        (call (nameE .Source) [] [(.z, num 0), (.l, num 0), (.b, num 0)]) ],
    [ assign (nameE .ml)
        (call (nameE .ModuleList) [nameE .alp, nameE .src]
          [(.pin, nameE .pin), (.EGeV, nameE .EGeV), (.seed, num 0)]) ],
    [ exprStmt (call (attrE (nameE .ml) .add_propagation) []
        [(.environ, strLit .sICMCell), (.order, num 0), (.B0, num 1),
         (.L0, num 10), (.nsim, num 1), (.n0, num (1/1000)),
         (.r_abell, num (101/10)), (.beta, num 0), (.eta, num 0)]) ],
    [ assign
        (attrE (subscript (attrE (nameE .ml) .modules) (num 0)) .psin)
        (binop .div
          (binop .mul
            (call (attrE (nameE .np) .ones_like)
              [attrE (subscript (attrE (nameE .ml) .modules) (num 0)) .psin] [])
            (attrE (nameE .np) .pi))
          (num 2)) ],
    [ assign (tup [nameE .px, nameE .py, nameE .pa])
        (call (attrE (nameE .ml) .run) [] []),
      exprStmt (call (nameE .printName) [attrE (nameE .pa) .shape] []) ],
    [ exprStmt (call (attrE (nameE .plt) .semilogx)
        [nameE .EGeV, subscript (nameE .pa) (num 0)] [(.lw, num 2)]),
      exprStmt (call (attrE (nameE .plt) .axvline)
        [call (nameE .EminGeV) []
          [(.m_neV, attrE (attrE (nameE .ml) .alp) .m),
           (.g11, attrE (attrE (nameE .ml) .alp) .g),
           (.BmuG, attrE (subscript (attrE (nameE .ml) .modules) (num 0)) .B),
           (.n_cm3, attrE (subscript (attrE (nameE .ml) .modules) (num 0)) .nel)]]
        [(.lw, num 1), (.ls, strLit .sDashed), (.color, strLit .sBlack)]),
      exprStmt (call (attrE (nameE .plt) .axvline)
        [call (nameE .EmaxGeV) []
          [(.g11, attrE (attrE (nameE .ml) .alp) .g),
           (.BmuG, attrE (subscript (attrE (nameE .ml) .modules) (num 0)) .B)]]
        [(.lw, num 1), (.ls, strLit .sDashDot), (.color, strLit .sBlack)]),
      exprStmt (call (attrE (nameE .plt) .xlabel) [strLit .sEnergyGeV] []),
      exprStmt (call (attrE (nameE .plt) .ylabel) [strLit .sPagamma] []) ] ]

/-- All statements of the notebook, in execution order. -/
def allStmts : List PyStmt := notebookAST.flatten

/-- A statement is straight-line when it is an import, an assignment or a
bare expression: no branching, no exception handling, no definitions. -/
def isStraight : PyStmt → Bool
  | .impStmt _ _ => true
  | .assign _ _ => true
  | .exprStmt _ => true
  | _ => false

/-- Recognizes a try-except statement. -/
def isTryS : PyStmt → Bool
  | .tryExcept _ _ => true
  | _ => false

/-- Recognizes an if statement. -/
def isIfS : PyStmt → Bool
  | .ifStmt _ _ _ => true
  | _ => false

/-- Recognizes a raise statement. -/
def isRaiseS : PyStmt → Bool
  | .raiseStmt _ => true
  | _ => false

/-- Recognizes a function definition. -/
def isFuncDefS : PyStmt → Bool
  | .funcDef _ _ => true
  | _ => false

/-- Recognizes a class definition. -/
def isClassDefS : PyStmt → Bool
  | .classDef _ _ => true
  | _ => false

/-- Recognizes a numeric literal expression. -/
def isNumB : PyExpr → Bool
  | .num _ => true
  | _ => false

/-- Recognizes a literal value: a numeric literal or a tuple of numeric
literals. -/
def isLitE : PyExpr → Bool
  | .num _ => true
  | .tup es => es.all isNumB
  | _ => false

/-- Recognizes an expression whose outermost form is a call. -/
def isCallE : PyExpr → Bool
  | .call _ _ _ => true
  | _ => false

/-- Recognizes an expression whose outermost form is an arithmetic
operator. -/
def isArithE : PyExpr → Bool
  | .binop _ _ _ => true
  | _ => false

/-- Classification of the right-hand sides bound by the notebook. -/
inductive RhsKind where
  | litK
  | callK
  | arithK
  | otherK
  deriving DecidableEq

/-- Classifies a bound right-hand side as a literal, a call, an
arithmetic expression, or something else. -/
def kindOf (e : PyExpr) : RhsKind :=
  if isLitE e then .litK
  else if isCallE e then .callK
  else if isArithE e then .arithK
  else .otherK

/-- An expression built from numeric literals, attribute references into
imported libraries and library calls, combined with arithmetic
operators. -/
def arithVal : PyExpr → Bool
  | .num _ => true
  | .attrE _ _ => true
  | .call _ _ _ => true
  | .binop _ a b => arithVal a && arithVal b
  | _ => false

/-- The target and right-hand side of every assignment of the notebook,
in order. -/
def assignsOf (nb : List (List PyStmt)) : List (PyExpr × PyExpr) :=
  nb.flatten.filterMap fun s =>
    match s with
    | .assign t r => some (t, r)
    | _ => none

/-- The right-hand sides bound by the notebook, in order. -/
def assignsRHS : List PyExpr := (assignsOf notebookAST).map Prod.snd

/-- The positional and keyword argument lists of every top-level
constructor call of the given callee inside an assignment. -/
def callsTo (f : PyName) (nb : List (List PyStmt)) :
    List (List PyExpr × List (PyName × PyExpr)) :=
  (assignsOf nb).filterMap fun p =>
    match p.2 with
    | .call (.nameE gname) args kwargs =>
        if gname = f then some (args, kwargs) else none
    | _ => none

/-- Names the notebook binds directly to numeric literals, either by a
plain assignment or by position inside a tuple assignment. -/
def numericBindings (nb : List (List PyStmt)) : List PyName :=
  (assignsOf nb).foldr
    (fun p acc =>
      match p with
      | (.nameE x, .num _) => x :: acc
      | (.tup ts, .tup es) =>
          (List.zip ts es).foldr
            (fun q acc2 =>
              match q with
              | (.nameE x, .num _) => x :: acc2
              | _ => acc2) acc
      | _ => acc) []

/-- A scalar argument: a numeric literal, or a name the notebook bound
to a numeric literal. -/
def isScalarRef (nb : List (List PyStmt)) (e : PyExpr) : Bool :=
  match e with
  | .num _ => true
  | .nameE x => (numericBindings nb).contains x
  | _ => false

/-- Kinds of externally visible output a statement can produce: written
standard output, or drawing on the plot. -/
inductive OutKind where
  | printOut
  | plotOut
  deriving DecidableEq

/-- Classifies a statement as producing standard output, drawing on the
plot, or producing no externally visible output. -/
def outKindOf : PyStmt → Option OutKind
  | .exprStmt (.call (.nameE .printName) _ _) => some .printOut
  | .exprStmt (.call (.attrE (.nameE .plt) _) _ _) => some .plotOut
  | _ => none

/-- The target lists of the assignments that destructure the result of
the ml.run call. -/
def runAssignTargets : List (List PyExpr) :=
  (assignsOf notebookAST).filterMap fun p =>
    match p with
    | (.tup ts, .call (.attrE (.nameE .ml) .run) _ _) => some ts
    | _ => none

/-- The matrix built by np.diag from a length-three diagonal: diagonal
entries from the argument, zero elsewhere. -/
def np_diag3 (v : Fin 3 → ℚ) : Fin 3 → Fin 3 → ℚ :=
  fun i j => if i = j then v i else 0

/-- The initial polarization matrix of cell 4, np.diag applied to the
tuple with entries one, zero, zero. -/
def pinM : Fin 3 → Fin 3 → ℚ := np_diag3 ![1, 0, 0]

/-- Matrix product of three-by-three matrices, written out entrywise. -/
def matMul3 (a b : Fin 3 → Fin 3 → ℚ) : Fin 3 → Fin 3 → ℚ :=
  fun i k => a i 0 * b 0 k + a i 1 * b 1 k + a i 2 * b 2 k

/-- Trace of a three-by-three matrix. -/
def trace3 (a : Fin 3 → Fin 3 → ℚ) : ℚ := a 0 0 + a 1 1 + a 2 2

noncomputable section

/-- Modelled from the spec: numpy logspace as invoked in cell 3.  The
numpy implementation is not part of the sources; following its documented
semantics, entry k of logspace start stop num is ten raised to the k-th
point of the linearly spaced grid from start to stop with num points. -/
def np_logspace (start stop : ℝ) (num : ℕ) : List ℝ :=
  (List.range num).map fun (k : ℕ) =>
    (10 : ℝ) ^ (start + (stop - start) * (k : ℝ) / ((num : ℝ) - 1))

/-- The energy grid of cell 3: np.logspace applied to zero, eight and one
thousand. -/
def EGeVlist : List ℝ := np_logspace 0 8 1000

/-- The ALP particle-parameter object: a mass and a coupling. -/
structure ALPparams where
  m : ℚ
  g : ℚ

/-- The source-geometry object: a redshift and two sky coordinates. -/
structure SourcePar where
  z : ℚ
  l : ℚ
  b : ℚ

/-- One ICMCell propagation module: the angles psin between the
transversal field and the x axis, one per magnetic-field cell, the field
strength, the electron density, the number of random realizations and the
cell size. -/
structure MixICMCell where
  psin : List ℝ
  B : ℚ
  nel : ℚ
  nsim : ℕ
  L0 : ℚ

/-- A linear congruential step, standing in for the seeded random number
generator of the library. -/
def lcg (s : ℕ) : ℕ := (1103515245 * s + 12345) % 2147483648

/-- Iterated generator states after successive draws. -/
def lcgIter (s : ℕ) : ℕ → ℕ
  | 0 => lcg s
  | n + 1 => lcg (lcgIter s n)

/-- Modelled from the spec: the i-th random field angle drawn for the
given seed, an angle in the half-open interval from zero to two pi.  The
numpy random generator used by the library is not part of the sources; a
deterministic congruential generator stands in for it. -/
def drawAngle (s i : ℕ) : ℝ :=
  2 * Real.pi * ((lcgIter s i : ℝ) / 2147483648)

/-- The list of field angles drawn for the given seed, one per cell. -/
def drawPsin (s n : ℕ) : List ℝ := (List.range n).map (drawAngle s)

/-- Modelled from the spec: construction of the ICMCell propagation
module by ml.add_propagation.  The library code is not part of the
sources; following the spec, the module carries one random field angle
per magnetic-field cell along the path, the constant field strength, the
constant electron density (beta and eta are zero in the notebook, so the
density profile is constant) and the requested number of realizations. -/
def mkICMCell (seedv : ℕ) (B0 L0 : ℚ) (nsimv : ℕ)
    (n0 r_abell beta eta : ℚ) : MixICMCell :=
  { psin := drawPsin seedv (Int.toNat ⌊r_abell / L0⌋)
    B := B0
    nel := n0
    nsim := nsimv
    L0 := L0 }

/-- The triple of probability arrays returned by ml.run: one array for
each of the two photon polarization states and one for the ALP state. -/
structure ProbResult where
  px : List (List ℝ)
  py : List (List ℝ)
  pa : List (List ℝ)

/-- The state of the ModuleList object. -/
structure MLState where
  alp : ALPparams
  src : SourcePar
  pin : Fin 3 → Fin 3 → ℚ
  EGeV : List ℝ
  seed : ℕ
  modules : List MixICMCell

/-- Modelled from the spec: the ml.run call.  The transfer-matrix solver
is not part of the sources and the spec leaves its values out of scope;
the spec fixes only that run returns three probability arrays px, py and
pa, each of shape number of realizations by number of energies, so the
entries themselves are modelled by an unspecified constant. -/
def runML (mls : MLState) : ProbResult :=
  { px := List.replicate (mls.modules.map MixICMCell.nsim).prod
      (mls.EGeV.map fun _ => (0 : ℝ))
    py := List.replicate (mls.modules.map MixICMCell.nsim).prod
      (mls.EGeV.map fun _ => (0 : ℝ))
    pa := List.replicate (mls.modules.map MixICMCell.nsim).prod
      (mls.EGeV.map fun _ => (0 : ℝ)) }

/-- The state of the whole notebook: the bound variables and the run
result, if any. -/
structure NBState where
  m : ℚ
  g : ℚ
  alp : ALPparams
  EGeV : List ℝ
  pin : Fin 3 → Fin 3 → ℚ
  src : SourcePar
  ml : MLState
  result : Option ProbResult

/-- The ModuleList state before cell 6 runs: empty defaults. -/
def emptyML : MLState :=
  { alp := { m := 0, g := 0 }
    src := { z := 0, l := 0, b := 0 }
    pin := fun _ _ => 0
    EGeV := []
    seed := 0
    modules := [] }

/-- The notebook state before any cell runs: empty defaults. -/
def initNB : NBState :=
  { m := 0
    g := 0
    alp := { m := 0, g := 0 }
    EGeV := []
    pin := fun _ _ => 0
    src := { z := 0, l := 0, b := 0 }
    ml := emptyML
    result := none }

/-- Cell 2: bind m and g and build the ALP object from them. -/
def cellSetParams (s : NBState) : NBState :=
  { s with m := 10, g := 3, alp := { m := 10, g := 3 } }

/-- Cell 3: bind the energy grid. -/
def cellSetEnergies (s : NBState) : NBState :=
  { s with EGeV := EGeVlist }

/-- Cell 4: bind the initial polarization matrix. -/
def cellSetPin (s : NBState) : NBState :=
  { s with pin := pinM }

/-- Cell 5: bind the source object. -/
def cellSetSource (s : NBState) : NBState :=
  { s with src := { z := 0, l := 0, b := 0 } }

/-- Cell 6: build the ModuleList from alp, src, pin, the energy grid and
seed zero. -/
def cellInitML (s : NBState) : NBState :=
  { s with ml :=
    { alp := s.alp
      src := s.src
      pin := s.pin
      EGeV := s.EGeV
      seed := 0
      modules := [] } }

/-- Cell 7: append the single ICMCell propagation module with the field
strength one, cell size ten, one realization, density one thousandth,
path length one hundred one tenths and flat profiles. -/
def cellAddPropagation (s : NBState) : NBState :=
  { s with ml := { s.ml with
      modules := s.ml.modules ++
        [mkICMCell s.ml.seed 1 10 1 (1/1000) (101/10) 0 0] } }

/-- The psin override of cell 8 on one module: np.ones_like of psin times
pi over two, an array of the same shape whose entries all equal pi over
two; the other fields of the module are untouched. -/
def setPsinHalfPi (mc : MixICMCell) : MixICMCell :=
  { mc with psin := mc.psin.map fun _ => Real.pi / 2 }

/-- Cell 8: replace psin of the first module. -/
def cellSetPsi (s : NBState) : NBState :=
  { s with ml := { s.ml with
      modules := s.ml.modules.modifyHead setPsinHalfPi } }

/-- Cell 9: run the calculation and store the probability triple. -/
def cellRun (s : NBState) : NBState :=
  { s with result := some (runML s.ml) }

/-- The notebook cell sequence as a list of state transitions, in the
order the cells appear.  The import cell and the plotting cell do not
change the state. -/
def notebookCells : List (NBState → NBState) :=
  [cellSetParams, cellSetEnergies, cellSetPin, cellSetSource, cellInitML,
   cellAddPropagation, cellSetPsi, cellRun]

/-- The notebook state right after cell 7, when the module has just been
created. -/
def stateAfterAdd : NBState :=
  cellAddPropagation (cellInitML (cellSetSource (cellSetPin
    (cellSetEnergies (cellSetParams initNB)))))

/-- The notebook state right after the psin override of cell 8. -/
def stateAfterPsi : NBState := cellSetPsi stateAfterAdd

/-- The notebook state after the run of cell 9. -/
def finalNB : NBState := cellRun stateAfterPsi

/-- A concrete module used to instantiate universally quantified
statements: a single cell with angle zero. -/
def mc0 : MixICMCell :=
  { psin := [0], B := 1, nel := 1, nsim := 1, L0 := 10 }

/-- Executions of a list of state transitions: the empty list relates a
state to itself, and a head transition is applied before the rest
executes. -/
inductive ExecList {σ : Type} : List (σ → σ) → σ → σ → Prop where
  | nilE (s : σ) : ExecList [] s s
  | consE {f : σ → σ} {fs : List (σ → σ)} {s t : σ}
      (h : ExecList fs (f s) t) : ExecList (f :: fs) s t

end

/-- C5: no error handling is present anywhere in the notebook: every
statement of every cell is a straight-line import, assignment or bare
expression, and in particular no cell contains a try-except construct, an
if branch, or a raise statement, so any library exception propagates
unhandled. -/
theorem no_error_handling :
    allStmts.all isStraight = true
    ∧ allStmts.any isTryS = false
    ∧ allStmts.any isIfS = false
    ∧ allStmts.any isRaiseS = false := by
  refine ⟨rfl, rfl, rfl, rfl⟩

/-- C6, counterexample: the claim that every value bound by the notebook
is produced by a library call fails on the code.  The classification of
the right-hand sides of the eight assignments shows the first binding,
m and g in cell 2, is a tuple of numeric literals, and the psin binding
of cell 8 is an arithmetic expression computed in the notebook, so not
every bound value is a call result. -/
theorem bound_values_not_all_calls :
    assignsRHS.map kindOf =
      [.litK, .callK, .callK, .callK, .callK, .callK, .arithK, .callK]
    ∧ assignsRHS.all isCallE = false := by
  exact ⟨rfl, rfl⟩

/-- C6, amended: no cell defines a function or a class, and every value
bound by the notebook is a numeric or tuple literal, a library call
result, or an arithmetic combination of library values and numeric
constants. -/
theorem no_defs_and_value_sources :
    allStmts.all (fun s => !(isFuncDefS s || isClassDefS s)) = true
    ∧ assignsRHS.all (fun e => isLitE e || isCallE e ||
        (isArithE e && arithVal e)) = true := by
  exact ⟨rfl, rfl⟩

/-- C7: the particle-parameter object is constructed from exactly two
positional arguments and no keyword arguments, both scalars, the
source-geometry object from exactly three keyword arguments named z, l
and b, all numeric literals, and the notebook defines no functions or
classes that could attach invariants or lifecycle rules to either. -/
theorem alp_source_arities :
    ((callsTo .ALP notebookAST).map fun p => (p.1.length, p.2.length)) = [(2, 0)]
    ∧ ((callsTo .Source notebookAST).map fun p => (p.1.length, p.2.length)) = [(0, 3)]
    ∧ ((callsTo .ALP notebookAST).all fun p =>
        p.1.all (isScalarRef notebookAST)) = true
    ∧ ((callsTo .Source notebookAST).map fun p => p.2.map Prod.fst) = [[.z, .l, .b]]
    ∧ ((callsTo .Source notebookAST).all fun p =>
        p.2.all fun kv => isNumB kv.2) = true
    ∧ allStmts.all (fun s => !(isFuncDefS s || isClassDefS s)) = true := by
  exact ⟨rfl, rfl, rfl, rfl, rfl, rfl⟩

/-- C8: the initial polarization matrix of cell 4 is a pure-state density
matrix for a fully x-polarized beam: it is idempotent under matrix
multiplication, has trace one, and every off-diagonal entry is zero. -/
theorem pin_projector :
    (∀ i k : Fin 3, matMul3 pinM pinM i k = pinM i k)
    ∧ trace3 pinM = 1
    ∧ (∀ i j : Fin 3, i ≠ j → pinM i j = 0) := by
  refine ⟨?_, ?_, ?_⟩
  · intro i k
    fin_cases i <;> fin_cases k <;> norm_num [matMul3, pinM, np_diag3]
  · norm_num [trace3, pinM, np_diag3]
  · intro i j h
    fin_cases i <;> fin_cases j <;> simp_all [pinM, np_diag3]

/-- Witness for C8 at the concrete entry in row zero, column one. -/
theorem pin_projector_witness :
    (0 : Fin 3) ≠ (1 : Fin 3) ∧ pinM 0 1 = 0 :=
  ⟨by decide, pin_projector.2.2 0 1 (by decide)⟩

set_option maxRecDepth 4000 in
/-- C1: running the notebook cells in order, the probability array pa
returned by ml.run has shape one by one thousand: one row per field
realization (nsim is one) and one column per energy of the grid EGeV,
matching the printed output of cell 9. -/
theorem run_pa_shape :
    ∃ r : ProbResult, finalNB.result = some r
      ∧ r.pa.length = 1 ∧ r.pa.map List.length = [1000] := by
  have h1 : (stateAfterPsi.ml.modules.map MixICMCell.nsim).prod = 1 := by
    simp [stateAfterPsi, stateAfterAdd, cellSetPsi, cellAddPropagation, cellInitML,
      cellSetSource, cellSetPin, cellSetEnergies, cellSetParams, initNB, emptyML,
      mkICMCell, setPsinHalfPi, List.modifyHead]
  have h2 : stateAfterPsi.ml.EGeV.length = 1000 := by
    simp [stateAfterPsi, stateAfterAdd, cellSetPsi, cellAddPropagation, cellInitML,
      cellSetSource, cellSetPin, cellSetEnergies, cellSetParams, initNB, emptyML,
      EGeVlist, np_logspace]
  refine ⟨runML stateAfterPsi.ml, rfl, ?_, ?_⟩
  · show (List.replicate (stateAfterPsi.ml.modules.map MixICMCell.nsim).prod
      (stateAfterPsi.ml.EGeV.map fun _ => (0 : ℝ))).length = 1
    rw [List.length_replicate, h1]
  · show (List.replicate (stateAfterPsi.ml.modules.map MixICMCell.nsim).prod
      (stateAfterPsi.ml.EGeV.map fun _ => (0 : ℝ))).map List.length = [1000]
    rw [h1]
    simp [h2]

/-- C2, counterexample: the claim that the three probability arrays and
the plot are the only externally visible output fails on the code.
Classifying every statement of the notebook that produces externally
visible output gives one standard-output statement, the print of the
shape of pa in cell 9, before the five plotting statements, so the
printed shape is a visible output beyond the arrays and the plot. -/
theorem notebook_print_output :
    allStmts.filterMap outKindOf =
      [.printOut, .plotOut, .plotOut, .plotOut, .plotOut, .plotOut] := rfl

set_option maxRecDepth 4000 in
/-- C2, amended: ml.run returns exactly three values px, py and pa, one
probability array per final state, destructured by cell 9 into exactly
the three names px, py and pa; the externally visible outputs of the
notebook are these arrays as rendered by the printed shape of pa and by
the plot. -/
theorem run_returns_triple :
    runAssignTargets = [[.nameE .px, .nameE .py, .nameE .pa]]
    ∧ (∃ r : ProbResult, finalNB.result = some r
        ∧ r.px.map List.length = [1000]
        ∧ r.py.map List.length = [1000]
        ∧ r.pa.map List.length = [1000])
    ∧ allStmts.filterMap outKindOf =
        [.printOut, .plotOut, .plotOut, .plotOut, .plotOut, .plotOut] := by
  have h1 : (stateAfterPsi.ml.modules.map MixICMCell.nsim).prod = 1 := by
    simp [stateAfterPsi, stateAfterAdd, cellSetPsi, cellAddPropagation, cellInitML,
      cellSetSource, cellSetPin, cellSetEnergies, cellSetParams, initNB, emptyML,
      mkICMCell, setPsinHalfPi, List.modifyHead]
  have h2 : stateAfterPsi.ml.EGeV.length = 1000 := by
    simp [stateAfterPsi, stateAfterAdd, cellSetPsi, cellAddPropagation, cellInitML,
      cellSetSource, cellSetPin, cellSetEnergies, cellSetParams, initNB, emptyML,
      EGeVlist, np_logspace]
  have hrow : ∀ p : List (List ℝ),
      p = List.replicate (stateAfterPsi.ml.modules.map MixICMCell.nsim).prod
        (stateAfterPsi.ml.EGeV.map fun _ => (0 : ℝ)) →
      p.map List.length = [1000] := by
    intro p hp
    rw [hp, h1]
    simp [h2]
  exact ⟨rfl, ⟨runML stateAfterPsi.ml, rfl, hrow _ rfl, hrow _ rfl, hrow _ rfl⟩, rfl⟩

/-- Entry k of the logspace grid is ten to the k-th linearly spaced
exponent. -/
theorem np_logspace_getD (start stop : ℝ) (num k : ℕ) (h : k < num) :
    (np_logspace start stop num).getD k 0 =
      (10 : ℝ) ^ (start + (stop - start) * (k : ℝ) / ((num : ℝ) - 1)) := by
  simp [np_logspace, List.getD, List.getElem?_map, List.getElem?_range, h]

/-- C3: the energy grid of cell 3 has exactly one thousand energies, its
first element is one, its last element is ten to the eighth, it is
strictly increasing, and consecutive entries all stand in one common
ratio, ten to the power eight over nine hundred ninety nine, so the
base-ten logarithms are equally spaced. -/
theorem logspace_energy_grid :
    EGeVlist.length = 1000
    ∧ EGeVlist.getD 0 0 = 1
    ∧ EGeVlist.getD 999 0 = (10 : ℝ) ^ (8 : ℕ)
    ∧ List.Pairwise (· < ·) EGeVlist
    ∧ ∀ k : Fin 999, EGeVlist.getD ((k : ℕ) + 1) 0 / EGeVlist.getD (k : ℕ) 0
        = (10 : ℝ) ^ ((8 : ℝ) / 999) := by
  refine ⟨?_, ?_, ?_, ?_, ?_⟩
  · simp [EGeVlist, np_logspace]
  · rw [EGeVlist, np_logspace_getD 0 8 1000 0 (by norm_num)]
    norm_num
  · rw [EGeVlist, np_logspace_getD 0 8 1000 999 (by norm_num),
      ← Real.rpow_natCast 10 8]
    congr 1
    push_cast
    norm_num
  · rw [EGeVlist, np_logspace, List.pairwise_map]
    refine (List.pairwise_lt_range 1000).imp ?_
    intro a c hac
    rw [Real.rpow_lt_rpow_left_iff (by norm_num : (1 : ℝ) < 10)]
    have hc : (a : ℝ) < c := Nat.cast_lt.mpr hac
    push_cast
    linarith
  · intro k
    have hk : (k : ℕ) < 1000 := lt_trans k.isLt (by norm_num)
    have hk1 : (k : ℕ) + 1 < 1000 := by omega
    rw [EGeVlist, np_logspace_getD 0 8 1000 _ hk1, np_logspace_getD 0 8 1000 _ hk,
      ← Real.rpow_sub (by norm_num : (0 : ℝ) < 10)]
    congr 1
    push_cast
    ring

/-- C4, counterexample: the claim that no object created in one cell has
its state mutated by a later cell fails on the code: the psin attribute
of the module created by cell 7 differs after cell 8, which reassigns it
to the constant pi over two while the created module carried the drawn
random angle. -/
theorem psin_mutated_between_cells :
    stateAfterPsi.ml.modules.map MixICMCell.psin ≠
      stateAfterAdd.ml.modules.map MixICMCell.psin := by
  intro h
  have hfloor : Int.toNat ⌊((101 : ℚ) / 10) / 10⌋ = 1 := by norm_num
  have hl : lcgIter 0 0 = 12345 := by norm_num [lcgIter, lcg]
  simp [stateAfterPsi, cellSetPsi, stateAfterAdd, cellAddPropagation, cellInitML,
    cellSetSource, cellSetPin, cellSetEnergies, cellSetParams, initNB, emptyML,
    mkICMCell, setPsinHalfPi, List.modifyHead, hfloor, drawPsin, drawAngle, hl] at h
  have h2 : (2 * (12345 / 2147483648 : ℝ) - 1 / 2) * Real.pi = 0 := by linarith
  rcases mul_eq_zero.mp h2 with h3 | h3
  · norm_num at h3
  · exact Real.pi_ne_zero h3

set_option maxRecDepth 8000 in
/-- C4, amended: the notebook is a single-threaded synchronous sequence
of calls, and the only mutation of an object created in an earlier cell
is the psin reassignment of cell 8: between the creation of the module in
cell 7 and the run call of cell 9, the field strength, electron density,
realization count and cell size of every module are unchanged, the state
change of cell 8 is exactly the psin head override, the run cell leaves
the ModuleList untouched, and every other notebook binding is unchanged
by cell 8. -/
theorem modules_frame_between_cells :
    stateAfterPsi.ml.modules.map MixICMCell.B =
      stateAfterAdd.ml.modules.map MixICMCell.B
    ∧ stateAfterPsi.ml.modules.map MixICMCell.nel =
      stateAfterAdd.ml.modules.map MixICMCell.nel
    ∧ stateAfterPsi.ml.modules.map MixICMCell.nsim =
      stateAfterAdd.ml.modules.map MixICMCell.nsim
    ∧ stateAfterPsi.ml.modules.map MixICMCell.L0 =
      stateAfterAdd.ml.modules.map MixICMCell.L0
    ∧ stateAfterPsi.ml.modules = stateAfterAdd.ml.modules.modifyHead setPsinHalfPi
    ∧ finalNB.ml = stateAfterPsi.ml
    ∧ stateAfterPsi.m = stateAfterAdd.m
    ∧ stateAfterPsi.g = stateAfterAdd.g
    ∧ stateAfterPsi.alp = stateAfterAdd.alp
    ∧ stateAfterPsi.EGeV = stateAfterAdd.EGeV
    ∧ stateAfterPsi.pin = stateAfterAdd.pin
    ∧ stateAfterPsi.src = stateAfterAdd.src := by
  exact ⟨rfl, rfl, rfl, rfl, rfl, rfl, rfl, rfl, rfl, rfl, rfl, rfl⟩

/-- Executing a fixed list of transitions from a fixed state reaches a
unique final state. -/
theorem execList_det {σ : Type} :
    ∀ (fs : List (σ → σ)) (s t₁ t₂ : σ),
      ExecList fs s t₁ → ExecList fs s t₂ → t₁ = t₂ := by
  intro fs
  induction fs with
  | nil =>
      intro s t₁ t₂ h₁ h₂
      cases h₁
      cases h₂
      rfl
  | cons f fs ih =>
      intro s t₁ t₂ h₁ h₂
      cases h₁ with
      | consE h₁ =>
        cases h₂ with
        | consE h₂ => exact ih _ _ _ h₁ h₂

/-- C9: the computation is deterministic under the fixed seed: any two
executions of the notebook cell sequence from the same initial state
produce identical run results, hence element-wise identical probability
arrays px, py and pa. -/
theorem run_deterministic (t₁ t₂ : NBState)
    (h₁ : ExecList notebookCells initNB t₁)
    (h₂ : ExecList notebookCells initNB t₂) :
    t₁.result = t₂.result := by
  rw [execList_det notebookCells initNB t₁ t₂ h₁ h₂]

/-- The notebook cell sequence executes from the initial state to the
final state. -/
theorem exec_notebook : ExecList notebookCells initNB finalNB := by
  show ExecList [cellSetParams, cellSetEnergies, cellSetPin, cellSetSource,
    cellInitML, cellAddPropagation, cellSetPsi, cellRun] initNB finalNB
  exact .consE (.consE (.consE (.consE (.consE (.consE (.consE (.consE
    (.nilE _))))))))

/-- Witness for C9 on the concrete execution of the notebook. -/
theorem run_deterministic_witness : finalNB.result = finalNB.result :=
  run_deterministic finalNB finalNB exec_notebook exec_notebook

/-- C10: the psi-angle override is shape-preserving and frame-limited:
the new psin array has the same length as the old one, every element of
it equals pi over two, and the field strength, electron density,
realization count and cell size of the module are unchanged. -/
theorem psin_override_frame (mc : MixICMCell) :
    (setPsinHalfPi mc).psin.length = mc.psin.length
    ∧ (∀ x, x ∈ (setPsinHalfPi mc).psin → x = Real.pi / 2)
    ∧ (setPsinHalfPi mc).B = mc.B
    ∧ (setPsinHalfPi mc).nel = mc.nel
    ∧ (setPsinHalfPi mc).nsim = mc.nsim
    ∧ (setPsinHalfPi mc).L0 = mc.L0 := by
  refine ⟨by simp [setPsinHalfPi], ?_, rfl, rfl, rfl, rfl⟩
  intro x hx
  simp [setPsinHalfPi] at hx
  exact hx.2

/-- Witness for C10 on a concrete one-cell module. -/
theorem psin_override_frame_witness :
    Real.pi / 2 ∈ (setPsinHalfPi mc0).psin ∧ Real.pi / 2 = Real.pi / 2 :=
  ⟨by simp [setPsinHalfPi, mc0],
   (psin_override_frame mc0).2.1 (Real.pi / 2) (by simp [setPsinHalfPi, mc0])⟩
